import Mathlib

/-!
Verification of the avtorend client-side presentation layer.

Shallow embedding of:
* the viewport/capability detector (`detectDeviceCapabilities`),
* the mobile navigation drawer state machine (`MobileMenu`, `openMobileMenu`,
  `closeMobileMenu`, swipe/resize/keyboard handlers, scroll lock),
* the fleet data client and renderer (`FleetManager`),
* the localization switcher (`lang-switcher.js`),
* the drawer focus trap (`setupKeyboardNavigation`).

DOM state (element classes, ARIA attributes, inline styles, scroll offset)
is represented explicitly in a `World` record; browser timers are modelled
as a pending-timer field fired by an explicit event.  CSS transform and
opacity strings are modelled structurally; `body.style.top` is kept as a
real string because the code round-trips it through `parseInt`.
-/

namespace Avtorend

/-! ### Viewport / capability detector (part_000, `detectDeviceCapabilities`, lines 76-103) -/

structure ViewportClass where
  isMobile : Bool
  isTablet : Bool
  isDesktop : Bool
  breakpoint : String
deriving DecidableEq

def detectDeviceCapabilities (viewportWidth : ℕ) : ViewportClass :=
  { isMobile := decide (viewportWidth ≤ 768)
    isTablet := decide (768 < viewportWidth ∧ viewportWidth ≤ 1024)
    isDesktop := decide (1024 < viewportWidth)
    breakpoint :=
      if viewportWidth < 375 then ("xs")
      else if viewportWidth < 568 then ("sm")
      else if viewportWidth < 768 then ("md")
      else if viewportWidth < 1024 then ("lg")
      else if viewportWidth < 1440 then ("xl")
      else ("2xl") }

/-! ### JS number/string helpers used by the scroll lock

`disableBodyScroll` writes the negated offset into `body.style.top` as a
pixel string, and `enableBodyScroll` reads it back via parseInt times -1.
We model the template-literal rendering of a non-negative integer as its
decimal digit string, and `parseInt` as: optional sign, then the longest
leading digit run (radix 10); no digits yields NaN, modelled as `none`. -/

def digitsOf (n : ℕ) : List Char :=
  if n = 0 then [Char.ofNat 48] else (Nat.digits 10 n).reverse.map Nat.digitChar

def jsNumToString (n : ℕ) : String := String.mk (digitsOf n)

def digitVal (c : Char) : ℕ := c.toNat - 48

def parseDigits (ds : List Char) : ℕ :=
  ds.foldl (fun a c => a * 10 + digitVal c) 0

def parseLeadingNat (l : List Char) : Option ℕ :=
  match l.takeWhile Char.isDigit with
  | [] => none
  | ds => some (parseDigits ds)

def parseIntChars : List Char → Option ℤ
  | '-' :: rest => (parseLeadingNat rest).map (fun n => -(n : ℤ))
  | '+' :: rest => (parseLeadingNat rest).map (fun n => (n : ℤ))
  | l => (parseLeadingNat l).map (fun n => (n : ℤ))

def parseIntJS (s : String) : Option ℤ := parseIntChars s.data

/-- Source: the parseInt-times-minus-one read-back, then `window.scrollTo` (which clamps a
negative or NaN target to 0).  Source: `enableBodyScroll`, lines 1192-1205. -/
def jsScrollRestore (top : String) : ℕ :=
  ((match parseIntJS (if top = ("") then ("0") else top) with
    | some n => n * (-1)
    | none => 0)).toNat

/-! ### Drawer state (part_000, `MobileMenu` object, lines 727-735) -/

structure MenuSt where
  isOpen : Bool
  isAnimating : Bool
  touchStartX : ℤ
  touchStartY : ℤ
  touchStartTime : ℤ
  menuWidth : ℤ
  lastScrollPosition : ℤ
deriving DecidableEq

/-- Source: `MobileMenu.swipeThreshold` (line 732). -/
def swipeThreshold : ℤ := 50

/-- A CSS `transform` inline-style value, modelled structurally:
`.cleared` is the empty string, `.translateX` the percentage translation. -/
inductive TransformVal
  | cleared
  | translateX (pct : ℚ)
deriving DecidableEq

/-- One drawer DOM element: presence, the `active` class, ARIA attributes and
the inline styles the drawer code touches. -/
structure ElemSt where
  present : Bool
  active : Bool
  ariaExpanded : Option String
  ariaHidden : Option String
  ariaLabel : Option String
  transform : TransformVal
  opacity : Option ℚ
deriving DecidableEq

structure BodyStyleSt where
  position : String
  top : String
  width : String
  overflow : String
  touchAction : String
deriving DecidableEq

def blankBodyStyle : BodyStyleSt :=
  { position := (""), top := (""), width := (""), overflow := (""), touchAction := ("") }

/-- Source: `disableBodyScroll` (lines 1178-1190) writes these inline styles. -/
def fixedBodyStyle (scrollY : ℕ) : BodyStyleSt :=
  { position := ("fixed")
    top := ("-" ++ jsNumToString scrollY ++ ("px"))
    width := ("100%")
    overflow := ("hidden")
    touchAction := ("none") }

/-- The two animation-completion timeouts (350 ms) scheduled by
`openMobileMenu` and `closeMobileMenu`. -/
inductive TimerKind
  | openT
  | closeT
deriving DecidableEq

structure World where
  menu : MenuSt
  toggle : ElemSt
  nav : ElemSt
  overlay : ElemSt
  closeBtn : ElemSt
  bodyMenuOpen : Bool
  bodyStyle : BodyStyleSt
  scrollY : ℕ
  pendingTimer : Option TimerKind
  focused : Option String
deriving DecidableEq

/-! ### Drawer operations (part_000, lines 746-1263) -/

/-- The overlay auto-creation block repeated at lines 749-757, 808-815,
899-906, 1068-1076, 1131-1138: if the overlay element is missing it is
created (with aria-hidden set true) and appended to the body. -/
def ensureOverlay (w : World) : World :=
  if w.overlay.present then w
  else
    { w with overlay :=
      { present := true, active := false, ariaExpanded := none
        ariaHidden := some ("true"), ariaLabel := none
        transform := TransformVal.cleared, opacity := none } }

/-- Source: the guarded classList.add of the active class. -/
def classAddActive (e : ElemSt) : ElemSt :=
  if e.present then { e with active := true } else e

/-- Source: the guarded classList.remove of the active class. -/
def classRemoveActive (e : ElemSt) : ElemSt :=
  if e.present then { e with active := false } else e

/-- ARIA updates on the toggle when opening (lines 1095-1098). -/
def ariaOpenToggle (e : ElemSt) : ElemSt :=
  if e.present then
    { e with ariaExpanded := some ("true"), ariaLabel := some ("Закрыть меню навигации") }
  else e

/-- ARIA updates on the toggle when closing (lines 1151-1154). -/
def ariaCloseToggle (e : ElemSt) : ElemSt :=
  if e.present then
    { e with ariaExpanded := some ("false"), ariaLabel := some ("Открыть меню навигации") }
  else e

/-- Source: the nav setAttribute of aria-hidden false when opening (line 1100). -/
def ariaShowNav (e : ElemSt) : ElemSt :=
  if e.present then { e with ariaHidden := some ("false") } else e

/-- Source: the nav setAttribute of aria-hidden true when closing (line 1156). -/
def ariaHideNav (e : ElemSt) : ElemSt :=
  if e.present then { e with ariaHidden := some ("true") } else e

/-- Source: `disableBodyScroll` (lines 1178-1190): fix the body, capturing the
current scroll offset in `body.style.top`.  The visual scroll offset itself
is not changed here. -/
def disableBodyScroll (w : World) : World :=
  { w with bodyStyle := fixedBodyStyle w.scrollY }

/-- Source: `enableBodyScroll` (lines 1192-1205): clear the inline styles and
scroll to the parseInt read-back of `body.style.top` times -1. -/
def enableBodyScroll (w : World) : World :=
  { w with bodyStyle := blankBodyStyle, scrollY := jsScrollRestore w.bodyStyle.top }

/-- Source: `openMobileMenu` (lines 1056-1117).  Guard: return unchanged if already
open or animating.  Otherwise: set the flags, save the scroll position, add
the `active` classes (each guarded by element presence), set ARIA, disable
body scroll, and schedule the 350 ms completion timeout. -/
def openMobileMenu (w : World) : World :=
  if w.menu.isOpen || w.menu.isAnimating then w
  else
    let w1 := ensureOverlay w
    let w2 :=
      { w1 with
        menu := { w1.menu with isAnimating := true, isOpen := true
                               lastScrollPosition := (w1.scrollY : ℤ) }
        toggle := ariaOpenToggle (classAddActive w1.toggle)
        overlay := classAddActive w1.overlay
        nav := ariaShowNav (classAddActive w1.nav)
        bodyMenuOpen := true }
    { disableBodyScroll w2 with pendingTimer := some TimerKind.openT }

/-- Source: `closeMobileMenu` (lines 1119-1176).  Guard: return unchanged if not
open or animating.  Otherwise: set `isAnimating`, remove the `active`
classes, restore ARIA, enable body scroll (restoring the scroll offset),
and schedule the 350 ms completion timeout (which clears `isOpen`). -/
def closeMobileMenu (w : World) : World :=
  if !w.menu.isOpen || w.menu.isAnimating then w
  else
    let w1 := ensureOverlay w
    let w2 :=
      { w1 with
        menu := { w1.menu with isAnimating := true }
        toggle := ariaCloseToggle (classRemoveActive w1.toggle)
        overlay := classRemoveActive w1.overlay
        nav := ariaHideNav (classRemoveActive w1.nav)
        bodyMenuOpen := false }
    { enableBodyScroll w2 with pendingTimer := some TimerKind.closeT }

/-- Firing the pending 350 ms timeout: the open timeout (lines 1110-1116)
focuses the close button and clears `isAnimating`; the close timeout
(lines 1166-1175) focuses the toggle and clears `isOpen` and `isAnimating`. -/
def fireTimer (w : World) : World :=
  match w.pendingTimer with
  | some TimerKind.openT =>
    { w with
      menu := { w.menu with isAnimating := false }
      focused := if w.closeBtn.present then some ("mobileCloseBtn") else w.focused
      pendingTimer := none }
  | some TimerKind.closeT =>
    { w with
      menu := { w.menu with isOpen := false, isAnimating := false }
      focused := if w.toggle.present then some ("mobileMenuToggle") else w.focused
      pendingTimer := none }
  | none => w

/-- The burger-click handler (lines 827-847): skip while animating, else
toggle. -/
def toggleClickHandler (w : World) : World :=
  if w.menu.isAnimating then w
  else if w.menu.isOpen then closeMobileMenu w
  else openMobileMenu w

/-- Overlay click (lines 850-855): close if the click target is the overlay
itself and the menu is open. -/
def overlayClickHandler (w : World) (targetIsOverlay : Bool) : World :=
  if targetIsOverlay && w.menu.isOpen then closeMobileMenu w else w

/-- Close-button click (lines 858-863). -/
def closeBtnClickHandler (w : World) : World := closeMobileMenu w

/-- Escape keydown (lines 881-886). -/
def escapeKeyHandler (w : World) : World :=
  if w.menu.isOpen then closeMobileMenu w else w

/-- Outside click on desktop (lines 1251-1263): close when open and the
target is inside neither the nav nor the toggle. -/
def outsideClickHandler (w : World) (inNav inToggle : Bool) : World :=
  if w.menu.isOpen && !inNav && !inToggle then closeMobileMenu w else w

/-- Source: `touchstart` on the nav (lines 911-915). -/
def touchStartHandler (w : World) (x y t : ℤ) : World :=
  { w with menu := { w.menu with touchStartX := x, touchStartY := y, touchStartTime := t } }

/-- Source: `touchmove` on the nav (lines 918-937): when open and not animating,
a rightward mostly-horizontal drag translates the panel by
`min(deltaX / menuWidth, 1) * 100` percent and fades the overlay. -/
def touchMoveHandler (w : World) (x y : ℤ) : World :=
  if !w.menu.isOpen || w.menu.isAnimating then w
  else
    let deltaX := x - w.menu.touchStartX
    let deltaY := |y - w.menu.touchStartY|
    if |deltaX| > deltaY && deltaX > 0 then
      let swipeProgress : ℚ := min ((deltaX : ℚ) / (w.menu.menuWidth : ℚ)) 1
      { w with
        nav := { w.nav with transform := TransformVal.translateX (swipeProgress * 100) }
        overlay := { w.overlay with opacity := some (1 - swipeProgress * (7 / 10)) } }
    else w

/-- The flick test `velocity > 0.3` where `velocity = deltaX / deltaTime`
(lines 946, 952).  JS computes this over floats; with `deltaTime ≥ 0` it is
exactly the denominator-cleared comparison `10 * deltaX > 3 * deltaTime`
(for `deltaTime = 0` JS compares `±Infinity`/`NaN`, agreeing with this form). -/
def velocityExceedsFlick (deltaX deltaTime : ℤ) : Bool :=
  decide (10 * deltaX > 3 * deltaTime)

/-- Source: `touchend` on the nav (lines 940-955): when open and not animating,
reset the panel transform, then close if `deltaX > swipeThreshold` or the
flick velocity is exceeded; otherwise leave the menu open (snap back). -/
def touchEndHandler (w : World) (clientX now : ℤ) : World :=
  if !w.menu.isOpen || w.menu.isAnimating then w
  else
    let deltaX := clientX - w.menu.touchStartX
    let deltaTime := now - w.menu.touchStartTime
    let w1 := { w with nav := { w.nav with transform := TransformVal.cleared } }
    if deltaX > swipeThreshold || velocityExceedsFlick deltaX deltaTime then
      closeMobileMenu w1
    else w1

/-- Source: `if (mobileNav) MobileMenu.menuWidth = mobileNav.offsetWidth`
(lines 1239-1242). -/
def menuWidthRefresh (w : World) (navOffsetWidth : ℤ) : World :=
  if w.nav.present then { w with menu := { w.menu with menuWidth := navOffsetWidth } } else w

/-- Source: `handleMenuResize` (lines 1238-1249): refresh the cached menu width and
close the menu when resizing to a viewport wider than 768px while open. -/
def handleMenuResize (w : World) (innerWidth : ℕ) (navOffsetWidth : ℤ) : World :=
  if 768 < innerWidth && (menuWidthRefresh w navOffsetWidth).menu.isOpen then
    closeMobileMenu (menuWidthRefresh w navOffsetWidth)
  else menuWidthRefresh w navOffsetWidth

/-- Source: `window.mobileMenu.isOpen` (lines 1279-1281). -/
def mobileMenuIsOpen (w : World) : Bool := w.menu.isOpen

/-- Source: `window.mobileMenu.isAnimating` (lines 1282-1284). -/
def mobileMenuIsAnimating (w : World) : Bool := w.menu.isAnimating

/-- Drawer phases as named by the spec.  `Opening`/`Closing` are the 350 ms windows in
which `isAnimating` is set, distinguished by the pending completion timer. -/
inductive Phase
  | closed
  | opening
  | opened
  | closing
deriving DecidableEq

def phaseOf (w : World) : Phase :=
  if w.menu.isAnimating then
    if w.pendingTimer = some TimerKind.openT then Phase.opening else Phase.closing
  else if w.menu.isOpen then Phase.opened
  else Phase.closed

/-- Drawer triggers and environment events. -/
inductive MEvent
  | toggleClick
  | overlayClick (targetIsOverlay : Bool)
  | closeClick
  | escapeKey
  | outsideClick (inNav inToggle : Bool)
  | touchStart (x y t : ℤ)
  | touchMove (x y : ℤ)
  | touchEnd (clientX now : ℤ)
  | timerFire
  | resize (innerWidth : ℕ) (navOffsetWidth : ℤ)
  | scrollSet (y : ℕ)
  | apiOpen
  | apiClose

def step (w : World) : MEvent → World
  | MEvent.toggleClick => toggleClickHandler w
  | MEvent.overlayClick t => overlayClickHandler w t
  | MEvent.closeClick => closeBtnClickHandler w
  | MEvent.escapeKey => escapeKeyHandler w
  | MEvent.outsideClick a b => outsideClickHandler w a b
  | MEvent.touchStart x y t => touchStartHandler w x y t
  | MEvent.touchMove x y => touchMoveHandler w x y
  | MEvent.touchEnd x t => touchEndHandler w x t
  | MEvent.timerFire => fireTimer w
  | MEvent.resize iw nw => handleMenuResize w iw nw
  | MEvent.scrollSet y => { w with scrollY := y, menu := { w.menu with lastScrollPosition := (y : ℤ) } }
  | MEvent.apiOpen => openMobileMenu w
  | MEvent.apiClose => closeMobileMenu w

def presentElem : ElemSt :=
  { present := true, active := false, ariaExpanded := none, ariaHidden := none
    ariaLabel := none, transform := TransformVal.cleared, opacity := none }

/-- The page state after a successful `initMobileMenu` on a complete DOM:
all drawer elements present, menu closed, default width 300 (line 776). -/
def initWorld : World :=
  { menu := { isOpen := false, isAnimating := false, touchStartX := 0, touchStartY := 0
              touchStartTime := 0, menuWidth := 300, lastScrollPosition := 0 }
    toggle := presentElem
    nav := presentElem
    overlay := presentElem
    closeBtn := presentElem
    bodyMenuOpen := false
    bodyStyle := blankBodyStyle
    scrollY := 0
    pendingTimer := none
    focused := none }

def runEvents (evs : List MEvent) : World := evs.foldl step initWorld

/-- Basic shape invariant of the drawer: the animation flag is only ever set
while `isOpen` is set (a close clears `isOpen` only when its timeout also
clears `isAnimating`). -/
def MenuInv (w : World) : Prop :=
  w.menu.isAnimating = true → w.menu.isOpen = true

/-! ### Fleet data client + renderer (src/js/api.js, `FleetManager`) -/

structure Category where
  id : ℤ
  name : String
  slug : String
  icon : String
deriving DecidableEq

structure Car where
  id : ℤ
  brand : String
  model : String
  year : ℤ
  daily_price : ℤ
  seats : Option ℤ
  transmission : Option String
  fuel_type : Option String
  category_id : ℤ
  images : List String
deriving DecidableEq

/-- Source: `getMockCategories` (api.js lines 272-278). -/
def getMockCategories : List Category :=
  [ { id := 1, name := ("Эконом"), slug := ("economy"), icon := ("💰") }
  , { id := 2, name := ("Комфорт"), slug := ("comfort"), icon := ("🚗") }
  , { id := 5, name := ("SUV"), slug := ("suv"), icon := ("🚙") } ]

/-- Source: `loadCategories` (api.js lines 86-96).  The argument is the outcome of
`window.carAPI?.getCategories`: `none` when the API object or method is
absent, `some (.error e)` when the call rejects, `some (.ok l)` on success. -/
def loadCategories (api : Option (Except String (List Category))) : List Category :=
  match api with
  | none => getMockCategories
  | some (Except.error _) => getMockCategories
  | some (Except.ok l) => l

/-- Source: the ru-RU Intl.NumberFormat, which groups decimal digits in threes separated
by a non-breaking space (U+00A0), working from the least significant digit.
`groupRev` operates on the little-endian digit list. -/
def groupRev : List Char → List Char
  | a :: b :: c :: d :: rest => a :: b :: c :: Char.ofNat 160 :: groupRev (d :: rest)
  | l => l

def formatRuRU (n : ℤ) : String :=
  if n < 0 then ("-") ++ String.mk ((groupRev ((digitsOf n.natAbs).reverse)).reverse)
  else String.mk ((groupRev ((digitsOf n.natAbs)).reverse).reverse)

/-- Source: `getTransmissionText` (api.js lines 247-253). -/
def getTransmissionText (v : Option String) : String :=
  match v with
  | some s =>
    if s = ("automatic") then ("Автомат")
    else if s = ("manual") then ("Механика")
    else if s = ("cvt") then ("Вариатор")
    else ("Автомат")
  | none => ("Автомат")

/-- Source: `getCarImage` (api.js lines 235-245); `window.carAPI.getCarImageUrl` is
not defined in this client, so the fallback chain applies:
the first image URL with the default-car.jpg static fallback (an empty first
image URL is falsy). -/
def getCarImage (car : Car) : String :=
  match car.images.head? with
  | some i => if i = ("") then ("/static/photos_cars/default-car.jpg") else i
  | none => ("/static/photos_cars/default-car.jpg")

/-- Source: `car.seats || 4` (api.js line 217): absent or zero is falsy. -/
def seatsText (s : Option ℤ) : ℤ :=
  match s with
  | some n => if n = 0 then 4 else n
  | none => 4

/-- Source: the fuel_type field with its Бензин fallback (api.js line 219). -/
def fuelText (f : Option String) : String :=
  match f with
  | some s => if s = ("") then ("Бензин") else s
  | none => ("Бензин")

/-- The category badge: the category name or a dash (api.js lines 202, 209). -/
def categoryBadge (categories : List Category) (catId : ℤ) : String :=
  match categories.find? (fun c => c.id = catId) with
  | some c => c.name
  | none => ("—")

def intText (n : ℤ) : String :=
  if n < 0 then ("-") ++ jsNumToString n.natAbs else jsNumToString n.natAbs

/-- Source: `createCarCard` (api.js lines 201-227): the card template literal,
rendered to a string (the indentation whitespace of the template is dropped as
presentation-irrelevant). -/
def createCarCard (categories : List Category) (car : Car) : String :=
  ("<div class=\"car-card\"><div class=\"car-image-container\"><img src=\"")
  ++ getCarImage car
  ++ ("\" loading=\"lazy\"><span class=\"car-category-badge\">")
  ++ categoryBadge categories car.category_id
  ++ ("</span></div><div class=\"car-info\"><h3>")
  ++ car.brand ++ (" ") ++ car.model ++ (" (") ++ intText car.year
  ++ (")</h3><div class=\"price\">")
  ++ formatRuRU car.daily_price
  ++ (" ₽ / сутки</div><div class=\"car-specs\"><span>👥 ")
  ++ intText (seatsText car.seats)
  ++ ("</span><span>⚙️ ")
  ++ getTransmissionText car.transmission
  ++ ("</span><span>⛽ ")
  ++ fuelText car.fuel_type
  ++ ("</span></div><button onclick=\"fleetManager.bookCar(")
  ++ intText car.id
  ++ (")\">Забронировать</button></div></div>")

/-- Source: `createNoCarsMessage` (api.js lines 266-268). -/
def createNoCarsMessage : String :=
  ("<div class=\"no-cars\">Автомобили не найдены</div>")

/-- Source: the grid content written by `showError` (api.js lines 262-264). -/
def errorDiv (msg : String) : String :=
  ("<div class=\"error\">") ++ msg ++ ("</div>")

/-- The fixed message passed to `showError` by `fetchCars` (api.js line 130). -/
def fetchCarsErrorMsg : String := ("Не удалось загрузить автомобили")

/-- Source: `showSkeleton` (api.js lines 229-231). -/
def skeletonHtml : String :=
  String.join (List.replicate 4 ("<div class=\"skeleton\">Загрузка...</div>"))

/-- Source: `renderCars` (api.js lines 190-199): empty list renders the no-cars
message, otherwise the joined car cards. -/
def renderCars (categories : List Category) (cars : List Car) : String :=
  if cars = [] then createNoCarsMessage
  else String.join (cars.map (createCarCard categories))

/-- The category filter selected by a click (api.js): the literal all or a concrete
category id. -/
inductive CatId
  | all
  | cat (id : ℤ)
deriving DecidableEq

/-- A `fetch` response payload after `res.json()`: either a JSON array of
cars or some non-array value (which `Array.isArray` coerces to `[]`,
api.js line 125). -/
inductive CarsPayload
  | list (cars : List Car)
  | notArray
deriving DecidableEq

def payloadCars : CarsPayload → List Car
  | CarsPayload.list cars => cars
  | CarsPayload.notArray => []

/-- Mutable fields of `FleetManager` (api.js lines 52-60) plus the
`#carsGrid` innerHTML it renders into. -/
structure FMState where
  currentCategoryId : CatId
  cars : List Car
  categories : List Category
  isLoading : Bool
  carsGrid : String
deriving DecidableEq

/-- Atomic scheduler steps of the fleet client on the single JS thread.
`fetchStart` is the synchronous prefix of `fetchCars` (up to its `await`),
`fetchComplete` its resumption when the response (or rejection) arrives;
`filterClick` is the synchronous body of `onFilterClick`, which either returns
early on `isLoading` or shows the skeleton and starts a fetch. -/
inductive FMEvent
  | filterClick (id : CatId)
  | fetchStart (id : CatId)
  | fetchComplete (r : Except String CarsPayload)

/-- One scheduler step.  `fetchComplete (.ok p)` is the success path of
`fetchCars` (api.js lines 125-126, 132): store the coerced list, render,
clear `isLoading`.  `fetchComplete (.error e)` is the catch path (lines
128-132): log, `showError`, clear `isLoading` — `this.cars` is untouched.
`fetchStart` sets `isLoading` (line 104).  `filterClick` (lines 172-186)
returns unchanged while loading, else selects the category, shows the
skeleton and synchronously enters `fetchCars` (setting `isLoading`). -/
def fmStep (st : FMState) : FMEvent → FMState
  | FMEvent.filterClick id =>
    if st.isLoading then st
    else { st with currentCategoryId := id, carsGrid := skeletonHtml, isLoading := true }
  | FMEvent.fetchStart _ => { st with isLoading := true }
  | FMEvent.fetchComplete (Except.ok p) =>
    { st with cars := payloadCars p
              carsGrid := renderCars st.categories (payloadCars p)
              isLoading := false }
  | FMEvent.fetchComplete (Except.error _) =>
    { st with carsGrid := errorDiv fetchCarsErrorMsg, isLoading := false }

def runFM (st : FMState) (evs : List FMEvent) : FMState := evs.foldl fmStep st

/-- The grid produced by a completing response, given the categories loaded
at completion time. -/
def completeGridOf (categories : List Category) : Except String CarsPayload → String
  | Except.ok p => renderCars categories (payloadCars p)
  | Except.error _ => errorDiv fetchCarsErrorMsg

/-! ### Localization switcher (src/js/lang-switcher.js)

A locale dictionary is a JSON value of nested objects with string (or other
primitive) leaves.  JS property access on primitive values (string indexing
and prototype methods) is not modelled: on the dictionary domain — nested
plain objects — `acc[key]` is an own-property lookup, `undefined` otherwise. -/

inductive JVal
  | str (s : String)
  | num (n : ℤ)
  | boolean (b : Bool)
  | null
  | obj (fields : List (String × JVal))

/-- JS truthiness of a JSON value (the empty string and 0 are falsy). -/
def jsTruthy : JVal → Bool
  | JVal.str s => !(s = (""))
  | JVal.num n => !(n = 0)
  | JVal.boolean b => b
  | JVal.null => false
  | JVal.obj _ => true

/-- Source: `acc[key]` on a dictionary node. -/
def getProp : JVal → String → Option JVal
  | JVal.obj fields, k => fields.lookup k
  | _, _ => none

/-- Source: path.split on the dot character, keeping empty segments (an empty
path yields `[""]`, as in JS). -/
def splitDotAux : List Char → List Char → List String
  | [], acc => [String.mk acc.reverse]
  | c :: rest, acc =>
    if c = '.' then String.mk acc.reverse :: splitDotAux rest []
    else splitDotAux rest (c :: acc)

def splitDot (path : String) : List String := splitDotAux path.data []

/-- Source: `get(obj, path)` (lang-switcher.js lines 13-15):
a reduce over the dot-split path, stepping to acc[key] when acc is truthy
and the property is defined, and to undefined otherwise. -/
def get (d : JVal) (path : String) : Option JVal :=
  (splitDot path).foldl
    (fun acc key =>
      match acc with
      | some v => if jsTruthy v && (getProp v key).isSome then getProp v key else none
      | none => none)
    (some d)

/-- A DOM element carrying translation attributes: its `data-i18n` /
`data-i18n-placeholder` keys, its text content and its `placeholder`
attribute (`none` when absent). -/
structure TransElem where
  i18nKey : Option String
  i18nPlaceholderKey : Option String
  text : String
  placeholder : Option String
deriving DecidableEq

/-- The `[data-i18n]` pass (lang-switcher.js lines 28-32): overwrite
`textContent` only when the looked-up value is a string. -/
def applyI18nText (d : JVal) (el : TransElem) : TransElem :=
  match el.i18nKey with
  | none => el
  | some k =>
    match get d k with
    | some (JVal.str s) => { el with text := s }
    | _ => el

/-- The `[data-i18n-placeholder]` pass (lines 35-39): `setAttribute` only
when the looked-up value is a string. -/
def applyI18nPlaceholder (d : JVal) (el : TransElem) : TransElem :=
  match el.i18nPlaceholderKey with
  | none => el
  | some k =>
    match get d k with
    | some (JVal.str s) => { el with placeholder := some s }
    | _ => el

/-- The `title[data-i18n]` pass (lines 42-47): overwrite `document.title`
only when the looked-up value is a string. -/
def applyI18nTitle (d : JVal) (titleKey : Option String) (docTitle : String) : String :=
  match titleKey with
  | none => docTitle
  | some k =>
    match get d k with
    | some (JVal.str s) => s
    | _ => docTitle

/-- Source: `applyTranslations` (lines 24-50): no-op while the dictionary is still
`null`, otherwise walk every flagged element and the title.  (Elements
carrying both attributes receive both independent updates.) -/
def applyTranslations (dict : Option JVal) (els : List TransElem)
    (titleKey : Option String) (docTitle : String) : List TransElem × String :=
  match dict with
  | none => (els, docTitle)
  | some d =>
    (els.map (fun el => applyI18nPlaceholder d (applyI18nText d el)),
     applyI18nTitle d titleKey docTitle)

/-! ### Drawer focus trap and init failure semantics (part_000, lines 746-802, 974-1015)

Element accesses are modelled in `Except`: `.error .nullFocus` marks the JS
`TypeError` of calling `.focus()` on `null`/`undefined`.  All other element
accesses in the init path are null-guarded in the source. -/

inductive JsErr
  | nullFocus
deriving DecidableEq

inductive FocusTarget
  | link (idx : ℕ)
  | closeBtn
  | toggleBtn
  | body
deriving DecidableEq

/-- Which drawer elements exist in the page markup, and how many
`.mobile-nav-link` elements there are. -/
structure DrawerDoc where
  togglePresent : Bool
  navPresent : Bool
  overlayPresent : Bool
  closePresent : Bool
  linkCount : ℕ
deriving DecidableEq

/-- Source: `initMobileMenu` (lines 746-802): the overlay is auto-created if absent
(lines 750-757); if the toggle or the nav is missing, log a warning and
return without wiring any listener (lines 770-773) — the boolean result
records whether the subsystem was wired.  Every element access in the
setup functions it calls is null-guarded, so initialization never throws. -/
def initMobileMenu (doc : DrawerDoc) : Except JsErr (Bool × DrawerDoc) :=
  let doc1 := { doc with overlayPresent := true }
  if !(doc1.togglePresent && doc1.navPresent) then Except.ok (false, doc1)
  else Except.ok (true, doc1)

/-- The focus-trap `keydown` handler installed by `setupKeyboardNavigation`
(lines 980-1002).  `firstElement` is `mobileLinks[0]` (`undefined` when the
node list is empty), `lastElement` is the `mobileCloseBtn` element captured
at setup time (`null` when absent).  `document.activeElement === undefined`
and `… === null` are `false`; calling `.focus()` on a missing element is
the `TypeError` modelled as `.error .nullFocus`. -/
def focusTrapKeydown (closePresent : Bool) (linkCount : ℕ) (menuIsOpen : Bool)
    (active : FocusTarget) (isTab shiftKey : Bool) : Except JsErr FocusTarget :=
  if !menuIsOpen then Except.ok active
  else
    let firstElement : Option FocusTarget :=
      if linkCount = 0 then none else some (FocusTarget.link 0)
    let lastElement : Option FocusTarget :=
      if closePresent then some FocusTarget.closeBtn else none
    if !isTab then Except.ok active
    else if shiftKey then
      if (match firstElement with | some f => decide (active = f) | none => false) then
        match lastElement with
        | some l => Except.ok l
        | none => Except.error JsErr.nullFocus
      else Except.ok active
    else
      if (match lastElement with | some l => decide (active = l) | none => false) then
        match firstElement with
        | some f => Except.ok f
        | none => Except.error JsErr.nullFocus
      else Except.ok active

/-! ### Concrete fixtures used to instantiate the theorems -/

/-- A drawer state caught mid-animation (the 350 ms `Opening` window). -/
def animWorld : World :=
  { initWorld with
    menu := { initWorld.menu with isOpen := true, isAnimating := true }
    pendingTimer := some TimerKind.openT }

/-- The drawer fully open: `openMobileMenu` followed by its completion
timeout. -/
def openWorld : World := fireTimer (openMobileMenu initWorld)

/-- A closed drawer on a page scrolled to offset 123. -/
def scrolledWorld : World := { initWorld with scrollY := 123 }

def fmInit : FMState :=
  { currentCategoryId := CatId.all, cars := [], categories := []
    isLoading := false, carsGrid := ("") }

def carA : Car :=
  { id := 1, brand := ("Kia"), model := ("Rio"), year := 2020, daily_price := 2500
    seats := some 5, transmission := some ("automatic"), fuel_type := none
    category_id := 1, images := [] }

def carB : Car :=
  { id := 2, brand := ("BMW"), model := ("X5"), year := 2022, daily_price := 9000
    seats := some 5, transmission := some ("automatic"), fuel_type := none
    category_id := 5, images := [] }

/-- A fleet state with one car already rendered and a fetch in flight. -/
def loadingFM : FMState := { fmInit with cars := [carA], isLoading := true }

/-- A fleet state with one car rendered and no fetch in flight. -/
def idleFM : FMState := { fmInit with cars := [carA] }

/-- A dictionary defining the `nav` subtree but not `nav.home`. -/
def dictMissingHome : JVal :=
  JVal.obj [(("nav"), JVal.obj [(("fleet"), JVal.str ("Автопарк"))])]

/-- A `nav.home`-tagged element with its pre-switch Russian text. -/
def elemHome : TransElem :=
  { i18nKey := some ("nav.home"), i18nPlaceholderKey := none
    text := ("Главная"), placeholder := none }

/-- Page markup missing only the close button of the drawer. -/
def docNoCloseBtn : DrawerDoc :=
  { togglePresent := true, navPresent := true, overlayPresent := true
    closePresent := false, linkCount := 2 }

/-! ## Helper lemmas -/

@[simp] theorem ensureOverlay_menu (w : World) : (ensureOverlay w).menu = w.menu := by
  unfold ensureOverlay; split <;> rfl

@[simp] theorem ensureOverlay_bodyStyle (w : World) :
    (ensureOverlay w).bodyStyle = w.bodyStyle := by
  unfold ensureOverlay; split <;> rfl

@[simp] theorem ensureOverlay_scrollY (w : World) : (ensureOverlay w).scrollY = w.scrollY := by
  unfold ensureOverlay; split <;> rfl

@[simp] theorem ensureOverlay_pendingTimer (w : World) :
    (ensureOverlay w).pendingTimer = w.pendingTimer := by
  unfold ensureOverlay; split <;> rfl

@[simp] theorem ensureOverlay_nav (w : World) : (ensureOverlay w).nav = w.nav := by
  unfold ensureOverlay; split <;> rfl

@[simp] theorem ensureOverlay_toggle (w : World) : (ensureOverlay w).toggle = w.toggle := by
  unfold ensureOverlay; split <;> rfl

@[simp] theorem ensureOverlay_closeBtn (w : World) : (ensureOverlay w).closeBtn = w.closeBtn := by
  unfold ensureOverlay; split <;> rfl

@[simp] theorem ensureOverlay_bodyMenuOpen (w : World) :
    (ensureOverlay w).bodyMenuOpen = w.bodyMenuOpen := by
  unfold ensureOverlay; split <;> rfl

/-- Effects of a close that passes its guard. -/
theorem closeMobileMenu_begins (w : World)
    (hOpen : w.menu.isOpen = true) (hAnim : w.menu.isAnimating = false) :
    (closeMobileMenu w).menu.isOpen = true ∧
    (closeMobileMenu w).menu.isAnimating = true ∧
    (closeMobileMenu w).pendingTimer = some TimerKind.closeT ∧
    (closeMobileMenu w).bodyMenuOpen = false ∧
    (closeMobileMenu w).scrollY = jsScrollRestore w.bodyStyle.top := by
  unfold closeMobileMenu enableBodyScroll
  simp [hOpen, hAnim]

/-- Effects of an open that passes its guard. -/
theorem openMobileMenu_begins (w : World)
    (hOpen : w.menu.isOpen = false) (hAnim : w.menu.isAnimating = false) :
    (openMobileMenu w).menu.isOpen = true ∧
    (openMobileMenu w).menu.isAnimating = true ∧
    (openMobileMenu w).pendingTimer = some TimerKind.openT ∧
    (openMobileMenu w).scrollY = w.scrollY ∧
    (openMobileMenu w).bodyStyle.top = ("-" ++ jsNumToString w.scrollY ++ ("px")) ∧
    (openMobileMenu w).menu.lastScrollPosition = (w.scrollY : ℤ) := by
  unfold openMobileMenu disableBodyScroll fixedBodyStyle
  simp [hOpen, hAnim]

/-- Effects of firing the close-completion timeout. -/
theorem fireTimer_closeT (w : World) (h : w.pendingTimer = some TimerKind.closeT) :
    (fireTimer w).menu.isOpen = false ∧
    (fireTimer w).menu.isAnimating = false ∧
    (fireTimer w).pendingTimer = none := by
  unfold fireTimer
  simp [h]

/-- Effects of firing the open-completion timeout. -/
theorem fireTimer_openT (w : World) (h : w.pendingTimer = some TimerKind.openT) :
    (fireTimer w).menu.isOpen = w.menu.isOpen ∧
    (fireTimer w).menu.isAnimating = false ∧
    (fireTimer w).pendingTimer = none ∧
    (fireTimer w).bodyStyle = w.bodyStyle ∧
    (fireTimer w).scrollY = w.scrollY := by
  unfold fireTimer
  simp [h]

/-! ## C1 — the animation guard serializes transitions -/

theorem openMobileMenu_id_of_animating (w : World) (h : w.menu.isAnimating = true) :
    openMobileMenu w = w := by
  unfold openMobileMenu
  simp [h]

theorem closeMobileMenu_id_of_animating (w : World) (h : w.menu.isAnimating = true) :
    closeMobileMenu w = w := by
  unfold closeMobileMenu
  simp [h]

/-- C1: While `MobileMenu.isAnimating` is set (the `Opening`/`Closing`
window), both `openMobileMenu` and `closeMobileMenu` return without
changing anything: drawer flags, DOM classes, ARIA attributes, inline
styles and scroll-lock state are all left exactly as they were, so no new
transition can begin while one is in flight. -/
theorem c1_animating_guard (w : World) (h : w.menu.isAnimating = true) :
    openMobileMenu w = w ∧ closeMobileMenu w = w :=
  ⟨openMobileMenu_id_of_animating w h, closeMobileMenu_id_of_animating w h⟩

/-- Witness for C1 at a concrete mid-animation state. -/
theorem c1_animating_guard_witness :
    openMobileMenu animWorld = animWorld ∧ closeMobileMenu animWorld = animWorld :=
  c1_animating_guard animWorld rfl

/-! ## Decimal rendering / `parseInt` round trip -/

theorem isDigit_digitChar (d : ℕ) (h : d < 10) : (Nat.digitChar d).isDigit = true := by
  interval_cases d <;> decide

theorem digitVal_digitChar (d : ℕ) (h : d < 10) : digitVal (Nat.digitChar d) = d := by
  interval_cases d <;> decide

theorem digitsOf_all_digits (n : ℕ) : ∀ c ∈ digitsOf n, c.isDigit = true := by
  intro c hc
  unfold digitsOf at hc
  split at hc
  · simp at hc
    subst hc
    decide
  · simp only [List.mem_map, List.mem_reverse] at hc
    obtain ⟨d, hd, rfl⟩ := hc
    exact isDigit_digitChar d (Nat.digits_lt_base (by norm_num) hd)

theorem digitsOf_ne_nil (n : ℕ) : digitsOf n ≠ [] := by
  unfold digitsOf
  split
  · simp
  · simp [Nat.digits_ne_nil_iff_ne_zero, *]

theorem takeWhile_append_all (p : Char → Bool) (A B : List Char)
    (hA : ∀ a ∈ A, p a = true) : (A ++ B).takeWhile p = A ++ B.takeWhile p := by
  induction A with
  | nil => simp
  | cons a A ih =>
    simp only [List.cons_append, List.takeWhile_cons, hA a (by simp)]
    simp [ih (fun x hx => hA x (by simp [hx]))]

theorem foldr_parse (L : List ℕ) (h : ∀ d ∈ L, d < 10) :
    (L.map Nat.digitChar).foldr (fun c a => a * 10 + digitVal c) 0 = Nat.ofDigits 10 L := by
  induction L with
  | nil => simp [Nat.ofDigits]
  | cons d T ih =>
    simp only [List.map_cons, List.foldr_cons, Nat.ofDigits_cons]
    rw [ih (fun x hx => h x (by simp [hx])), digitVal_digitChar d (h d (by simp))]
    omega

theorem parseDigits_digitsOf (n : ℕ) : parseDigits (digitsOf n) = n := by
  unfold digitsOf
  split
  · subst ‹n = 0›
    decide
  · unfold parseDigits
    rw [List.map_reverse, List.foldl_reverse,
      foldr_parse (Nat.digits 10 n) (fun d hd => Nat.digits_lt_base (by norm_num) hd),
      Nat.ofDigits_digits]

theorem topString_data (y : ℕ) :
    (("-") ++ jsNumToString y ++ ("px")).data = '-' :: (digitsOf y ++ ['p', 'x']) := by
  rw [String.data_append, String.data_append]
  rfl

/-- Round trip of the scroll-lock: the `top` style written by
`disableBodyScroll` for offset `y` is read back to exactly `y` by
the parseInt read-back in `enableBodyScroll`, negated. -/
theorem jsScrollRestore_roundtrip (y : ℕ) :
    jsScrollRestore (("-") ++ jsNumToString y ++ ("px")) = y := by
  have hdata := topString_data y
  have hne : (("-") ++ jsNumToString y ++ ("px")) ≠ ("") := by
    intro h
    rw [h] at hdata
    exact List.noConfusion hdata
  have htake : (digitsOf y ++ ['p', 'x']).takeWhile Char.isDigit = digitsOf y := by
    rw [takeWhile_append_all Char.isDigit (digitsOf y) ['p', 'x'] (digitsOf_all_digits y)]
    simp [List.takeWhile_cons]
  have hparse : parseLeadingNat (digitsOf y ++ ['p', 'x']) = some y := by
    unfold parseLeadingNat
    rw [htake]
    obtain ⟨c, cs, hcs⟩ := List.exists_cons_of_ne_nil (digitsOf_ne_nil y)
    rw [hcs]
    have := parseDigits_digitsOf y
    rw [hcs] at this
    simp [this]
  unfold jsScrollRestore parseIntJS
  rw [if_neg hne, hdata]
  simp only [parseIntChars, hparse, Option.map_some]
  simp

/-! ## C3 — open/close round trip restores the scroll offset -/

/-- C3: For every page state with the drawer closed and every scroll
offset the browser may move to while the body is fixed (`z` — fixing the
body visually resets `window.scrollY`), opening the drawer (which records
the offset in `body.style.top`), letting the open animation finish, and
then closing restores `window.scrollY` to exactly the offset captured at
open time. -/
theorem c3_scroll_roundtrip (w : World) (z : ℕ)
    (hOpen : w.menu.isOpen = false) (hAnim : w.menu.isAnimating = false) :
    (closeMobileMenu ({ fireTimer (openMobileMenu w) with scrollY := z })).scrollY
      = w.scrollY := by
  obtain ⟨h1, _h2, h3, _h4, h5, _h6⟩ := openMobileMenu_begins w hOpen hAnim
  obtain ⟨g1, g2, _g3, g4, _g5⟩ := fireTimer_openT (openMobileMenu w) h3
  have e1 : ({ fireTimer (openMobileMenu w) with scrollY := z }).menu
      = (fireTimer (openMobileMenu w)).menu := rfl
  have e2 : ({ fireTimer (openMobileMenu w) with scrollY := z }).bodyStyle
      = (fireTimer (openMobileMenu w)).bodyStyle := rfl
  obtain ⟨_c1, _c2, _c3, _c4, c5⟩ :=
    closeMobileMenu_begins ({ fireTimer (openMobileMenu w) with scrollY := z })
      (by rw [e1, g1, h1]) (by rw [e1, g2])
  rw [c5, e2, g4, h5, jsScrollRestore_roundtrip]

/-- Witness for C3: a page scrolled to 123, with the browser resetting the
visual offset to 0 while the body is fixed. -/
theorem c3_scroll_roundtrip_witness :
    (closeMobileMenu ({ fireTimer (openMobileMenu scrolledWorld) with scrollY := 0 })).scrollY
      = 123 := by
  have h := c3_scroll_roundtrip scrolledWorld 0 rfl rfl
  simpa [scrolledWorld] using h

/-! ## C2 — swipe-release commit thresholds -/

/-- The `touchend` handler on a guard-passing state, reduced to its two
outcomes: the transform is always reset, and the menu closes exactly when
the pixel threshold or the flick velocity is exceeded. -/
theorem touchEndHandler_eq (w : World) (x t : ℤ)
    (hOpen : w.menu.isOpen = true) (hAnim : w.menu.isAnimating = false) :
    touchEndHandler w x t =
      (if decide (x - w.menu.touchStartX > swipeThreshold)
          || velocityExceedsFlick (x - w.menu.touchStartX) (t - w.menu.touchStartTime) then
        closeMobileMenu { w with nav := { w.nav with transform := TransformVal.cleared } }
      else { w with nav := { w.nav with transform := TransformVal.cleared } }) := by
  unfold touchEndHandler
  simp [hOpen, hAnim]

/-- A guard-passing close leaves the transform style of the nav panel as it
was (it only removes the `active` class and sets ARIA). -/
theorem closeMobileMenu_nav_transform (w : World)
    (hOpen : w.menu.isOpen = true) (hAnim : w.menu.isAnimating = false) :
    (closeMobileMenu w).nav.transform = w.nav.transform := by
  unfold closeMobileMenu enableBodyScroll ariaHideNav classRemoveActive
  simp only [hOpen, hAnim, Bool.not_true, Bool.false_or, Bool.or_false, if_false]
  by_cases h : w.nav.present <;> simp [h]

theorem phaseOf_eq_closed (w : World)
    (h1 : w.menu.isOpen = false) (h2 : w.menu.isAnimating = false) :
    phaseOf w = Phase.closed := by
  unfold phaseOf
  simp [h1, h2]

/-- C2: A swipe on the open drawer released with displacement `dx` after
`dt > 0` ms (so the flick test `dx/dt > 0.3` is the integer comparison
`10*dx > 3*dt`): at `dx = swipeThreshold + 1` with sub-flick velocity the
drawer commits to `Closed` (close transition begins; after its timeout the
phase is `Closed`); at `dx = swipeThreshold - 1` with sub-flick velocity it
snaps back — the handler only resets the panel transform and the drawer
stays `Open`; and any release whose velocity exceeds the flick minimum
closes regardless of `dx`. -/
theorem c2_swipe_release (w : World) (dx dt : ℤ)
    (hOpen : w.menu.isOpen = true) (hAnim : w.menu.isAnimating = false) (hdt : 0 < dt) :
    (dx = swipeThreshold + 1 → 10 * dx ≤ 3 * dt →
      (touchEndHandler w (w.menu.touchStartX + dx) (w.menu.touchStartTime + dt)).menu.isAnimating = true ∧
      (touchEndHandler w (w.menu.touchStartX + dx) (w.menu.touchStartTime + dt)).nav.transform = TransformVal.cleared ∧
      (fireTimer (touchEndHandler w (w.menu.touchStartX + dx) (w.menu.touchStartTime + dt))).menu.isOpen = false ∧
      phaseOf (fireTimer (touchEndHandler w (w.menu.touchStartX + dx) (w.menu.touchStartTime + dt))) = Phase.closed) ∧
    (dx = swipeThreshold - 1 → 10 * dx ≤ 3 * dt →
      touchEndHandler w (w.menu.touchStartX + dx) (w.menu.touchStartTime + dt)
        = { w with nav := { w.nav with transform := TransformVal.cleared } }) ∧
    (10 * dx > 3 * dt →
      (touchEndHandler w (w.menu.touchStartX + dx) (w.menu.touchStartTime + dt)).menu.isAnimating = true ∧
      (fireTimer (touchEndHandler w (w.menu.touchStartX + dx) (w.menu.touchStartTime + dt))).menu.isOpen = false) := by
  have hx : w.menu.touchStartX + dx - w.menu.touchStartX = dx := by omega
  have ht : w.menu.touchStartTime + dt - w.menu.touchStartTime = dt := by omega
  have heq := touchEndHandler_eq w (w.menu.touchStartX + dx) (w.menu.touchStartTime + dt) hOpen hAnim
  rw [hx, ht] at heq
  have hw1Open : ({ w with nav := { w.nav with transform := TransformVal.cleared } } : World).menu.isOpen = true := hOpen
  have hw1Anim : ({ w with nav := { w.nav with transform := TransformVal.cleared } } : World).menu.isAnimating = false := hAnim
  refine ⟨?_, ?_, ?_⟩
  · intro hdx hv
    have hcond : (decide (dx > swipeThreshold)
        || velocityExceedsFlick dx dt) = true := by
      subst hdx
      simp [swipeThreshold]
    rw [heq, if_pos hcond]
    obtain ⟨b1, b2, b3, _b4, _b5⟩ :=
      closeMobileMenu_begins _ hw1Open hw1Anim
    obtain ⟨f1, f2, _f3⟩ := fireTimer_closeT _ b3
    refine ⟨b2, ?_, f1, phaseOf_eq_closed _ f1 f2⟩
    rw [closeMobileMenu_nav_transform _ hw1Open hw1Anim]
  · intro hdx hv
    have hcond : (decide (dx > swipeThreshold)
        || velocityExceedsFlick dx dt) = false := by
      unfold velocityExceedsFlick
      subst hdx
      simp only [Bool.or_eq_false_iff, decide_eq_false_iff_not, not_lt]
      constructor <;> omega
    rw [heq, if_neg (by simp [hcond])]
  · intro hv
    have hcond : (decide (dx > swipeThreshold)
        || velocityExceedsFlick dx dt) = true := by
      unfold velocityExceedsFlick
      simp only [Bool.or_eq_true, decide_eq_true_eq]
      right
      omega
    rw [heq, if_pos hcond]
    obtain ⟨b1, b2, b3, _b4, _b5⟩ :=
      closeMobileMenu_begins _ hw1Open hw1Anim
    obtain ⟨f1, _f2, _f3⟩ := fireTimer_closeT _ b3
    exact ⟨b2, f1⟩

/-- Witness for C2 at the open drawer, `dx = 51` and `dt = 200` ms (velocity
`0.255 ≤ 0.3`). -/
theorem c2_swipe_release_witness :
    (touchEndHandler openWorld (openWorld.menu.touchStartX + 51) (openWorld.menu.touchStartTime + 200)).menu.isAnimating = true ∧
    (touchEndHandler openWorld (openWorld.menu.touchStartX + 51) (openWorld.menu.touchStartTime + 200)).nav.transform = TransformVal.cleared ∧
    (fireTimer (touchEndHandler openWorld (openWorld.menu.touchStartX + 51) (openWorld.menu.touchStartTime + 200))).menu.isOpen = false ∧
    phaseOf (fireTimer (touchEndHandler openWorld (openWorld.menu.touchStartX + 51) (openWorld.menu.touchStartTime + 200))) = Phase.closed :=
  (c2_swipe_release openWorld 51 200 rfl rfl (by decide)).1 (by decide) (by decide)

/-! ## C9 — resize to a desktop-class width closes the open drawer -/

/-- A guard-passing close followed by its completion timeout reaches
`Closed`. -/
theorem closeMobileMenu_reaches_closed (w : World)
    (h1 : w.menu.isOpen = true) (h2 : w.menu.isAnimating = false) :
    (closeMobileMenu w).menu.isAnimating = true ∧
    (closeMobileMenu w).pendingTimer = some TimerKind.closeT ∧
    (fireTimer (closeMobileMenu w)).menu.isOpen = false ∧
    phaseOf (fireTimer (closeMobileMenu w)) = Phase.closed := by
  obtain ⟨_b1, b2, b3, _b4, _b5⟩ := closeMobileMenu_begins w h1 h2
  obtain ⟨f1, f2, _f3⟩ := fireTimer_closeT _ b3
  exact ⟨b2, b3, f1, phaseOf_eq_closed _ f1 f2⟩

/-- C9: If the viewport is resized to a desktop-class width (per
`detectDeviceCapabilities`, width > 1024) while the drawer is `Open` (open
and not animating), `handleMenuResize` immediately initiates the close
transition — the guard passes without any bypass, the close-completion
timer is scheduled, and once it fires the drawer is `Closed`. -/
theorem c9_resize_closes (w : World) (iw : ℕ) (nw : ℤ)
    (hDesk : (detectDeviceCapabilities iw).isDesktop = true)
    (hOpen : w.menu.isOpen = true) (hAnim : w.menu.isAnimating = false) :
    (handleMenuResize w iw nw).menu.isAnimating = true ∧
    (handleMenuResize w iw nw).pendingTimer = some TimerKind.closeT ∧
    (fireTimer (handleMenuResize w iw nw)).menu.isOpen = false ∧
    phaseOf (fireTimer (handleMenuResize w iw nw)) = Phase.closed := by
  have hiw : 768 < iw := by
    simp only [detectDeviceCapabilities, decide_eq_true_eq] at hDesk
    omega
  have h1 : (menuWidthRefresh w nw).menu.isOpen = true := by
    unfold menuWidthRefresh
    split <;> exact hOpen
  have h2 : (menuWidthRefresh w nw).menu.isAnimating = false := by
    unfold menuWidthRefresh
    split <;> exact hAnim
  unfold handleMenuResize
  simp only [h1, hiw, decide_eq_true_eq, Bool.and_true, decide_true_eq_true]
  simp [hiw]
  exact closeMobileMenu_reaches_closed _ h1 h2

/-- Witness for C9: the open drawer at viewport width 1200. -/
theorem c9_resize_closes_witness :
    (handleMenuResize openWorld 1200 300).menu.isAnimating = true ∧
    (handleMenuResize openWorld 1200 300).pendingTimer = some TimerKind.closeT ∧
    (fireTimer (handleMenuResize openWorld 1200 300)).menu.isOpen = false ∧
    phaseOf (fireTimer (handleMenuResize openWorld 1200 300)) = Phase.closed :=
  c9_resize_closes openWorld 1200 300 (by decide) rfl rfl

/-! ## Reachability invariant: `isAnimating → isOpen` -/

theorem menuInv_open (w : World) (h : MenuInv w) : MenuInv (openMobileMenu w) := by
  unfold MenuInv openMobileMenu at *
  split
  · exact h
  · intro _
    rfl

theorem menuInv_close (w : World) (h : MenuInv w) : MenuInv (closeMobileMenu w) := by
  unfold MenuInv closeMobileMenu at *
  split
  · exact h
  · rename_i hg
    intro _
    simp only [Bool.or_eq_true, Bool.not_eq_true', not_or] at hg
    simp [enableBodyScroll, hg.1]

theorem menuInv_fire (w : World) (h : MenuInv w) : MenuInv (fireTimer w) := by
  unfold MenuInv fireTimer at *
  cases hpt : w.pendingTimer with
  | none => simpa [hpt] using h
  | some k => cases k <;> simp [hpt]

theorem menuInv_refresh (w : World) (nw : ℤ) (h : MenuInv w) :
    MenuInv (menuWidthRefresh w nw) := by
  unfold menuWidthRefresh
  split
  · exact fun ha => h ha
  · exact h

theorem menuInv_touchMove (w : World) (x y : ℤ) (h : MenuInv w) :
    MenuInv (touchMoveHandler w x y) := by
  unfold touchMoveHandler
  split
  · exact h
  · dsimp only
    split
    · exact fun ha => h ha
    · exact h

theorem menuInv_touchEnd (w : World) (x t : ℤ) (h : MenuInv w) :
    MenuInv (touchEndHandler w x t) := by
  unfold touchEndHandler
  split
  · exact h
  · dsimp only
    split
    · exact menuInv_close _ (fun ha => h ha)
    · exact fun ha => h ha

theorem menuInv_step (w : World) (e : MEvent) (h : MenuInv w) : MenuInv (step w e) := by
  cases e with
  | toggleClick =>
    simp only [step]
    unfold toggleClickHandler
    split
    · exact h
    · split
      · exact menuInv_close w h
      · exact menuInv_open w h
  | overlayClick t =>
    simp only [step]
    unfold overlayClickHandler
    split
    · exact menuInv_close w h
    · exact h
  | closeClick =>
    simp only [step]
    exact menuInv_close w h
  | escapeKey =>
    simp only [step]
    unfold escapeKeyHandler
    split
    · exact menuInv_close w h
    · exact h
  | outsideClick a b =>
    simp only [step]
    unfold outsideClickHandler
    split
    · exact menuInv_close w h
    · exact h
  | touchStart x y t =>
    simp only [step]
    exact fun ha => h ha
  | touchMove x y =>
    simp only [step]
    exact menuInv_touchMove w x y h
  | touchEnd x t =>
    simp only [step]
    exact menuInv_touchEnd w x t h
  | timerFire =>
    simp only [step]
    exact menuInv_fire w h
  | resize iw nw =>
    simp only [step]
    unfold handleMenuResize
    split
    · exact menuInv_close _ (menuInv_refresh w nw h)
    · exact menuInv_refresh w nw h
  | scrollSet y =>
    simp only [step]
    exact fun ha => h ha
  | apiOpen =>
    simp only [step]
    exact menuInv_open w h
  | apiClose =>
    simp only [step]
    exact menuInv_close w h

theorem menuInv_foldl (evs : List MEvent) :
    ∀ w : World, MenuInv w → MenuInv (evs.foldl step w) := by
  induction evs with
  | nil => intro w h; exact h
  | cons e t ih => intro w h; exact ih _ (menuInv_step w e h)

theorem menuInv_run (evs : List MEvent) : MenuInv (runEvents evs) :=
  menuInv_foldl evs initWorld (fun h => absurd h (by decide))

/-! ## C10 — the public `isOpen()` accessor across phases -/

theorem phase_closed_elim (w : World) (h : phaseOf w = Phase.closed) :
    w.menu.isOpen = false ∧ w.menu.isAnimating = false := by
  unfold phaseOf at h
  cases hA : w.menu.isAnimating with
  | true =>
    simp only [hA, if_true] at h
    split at h <;> cases h
  | false =>
    simp only [hA, Bool.false_eq_true, if_false] at h
    cases hO : w.menu.isOpen with
    | true => simp [hO] at h
    | false => exact ⟨rfl, rfl⟩

theorem phase_opened_elim (w : World) (h : phaseOf w = Phase.opened) :
    w.menu.isOpen = true ∧ w.menu.isAnimating = false := by
  unfold phaseOf at h
  cases hA : w.menu.isAnimating with
  | true =>
    simp only [hA, if_true] at h
    split at h <;> cases h
  | false =>
    simp only [hA, Bool.false_eq_true, if_false] at h
    cases hO : w.menu.isOpen with
    | true => exact ⟨rfl, rfl⟩
    | false => simp [hO] at h

/-- C10: In every reachable drawer state, `window.mobileMenu.isOpen()`
returns `true` exactly when the phase is `Opening`, `Open` or `Closing`:
it flips to `true` the instant an open begins (`openMobileMenu` from
`Closed` sets it before the animation completes), it stays `true` when a
close begins from `Open`, and it becomes `false` only when the close
timeout fires.  Moreover, during that `Closing` window a reopen attempt is
rejected unchanged by the animation guard of `openMobileMenu`. -/
theorem c10_isOpen_accessor (evs : List MEvent) :
    (mobileMenuIsOpen (runEvents evs) = true ↔ phaseOf (runEvents evs) ≠ Phase.closed) ∧
    (phaseOf (runEvents evs) = Phase.closed →
      mobileMenuIsOpen (openMobileMenu (runEvents evs)) = true) ∧
    (phaseOf (runEvents evs) = Phase.opened →
      mobileMenuIsOpen (closeMobileMenu (runEvents evs)) = true ∧
      mobileMenuIsOpen (fireTimer (closeMobileMenu (runEvents evs))) = false ∧
      openMobileMenu (closeMobileMenu (runEvents evs)) = closeMobileMenu (runEvents evs)) := by
  have hInv := menuInv_run evs
  refine ⟨?_, ?_, ?_⟩
  · unfold mobileMenuIsOpen phaseOf
    cases hA : (runEvents evs).menu.isAnimating with
    | true =>
      have hO := hInv hA
      rw [hO]
      simp only [if_true, ne_eq, true_iff]
      split <;> simp
    | false =>
      cases hO : (runEvents evs).menu.isOpen with
      | true => simp [hO]
      | false => simp [hO]
  · intro h
    obtain ⟨hO, hA⟩ := phase_closed_elim _ h
    exact (openMobileMenu_begins _ hO hA).1
  · intro h
    obtain ⟨hO, hA⟩ := phase_opened_elim _ h
    obtain ⟨b1, b2, b3, _b4, _b5⟩ := closeMobileMenu_begins _ hO hA
    obtain ⟨f1, _f2, _f3⟩ := fireTimer_closeT _ b3
    exact ⟨b1, f1, openMobileMenu_id_of_animating _ b2⟩

/-- Witness for C10: open the drawer and let the animation finish, then
close — `isOpen()` stays `true` through the `Closing` window, a reopen is
rejected, and the accessor flips to `false` when the timeout fires. -/
theorem c10_isOpen_accessor_witness :
    mobileMenuIsOpen (closeMobileMenu (runEvents [MEvent.apiOpen, MEvent.timerFire])) = true ∧
    mobileMenuIsOpen (fireTimer (closeMobileMenu (runEvents [MEvent.apiOpen, MEvent.timerFire]))) = false ∧
    openMobileMenu (closeMobileMenu (runEvents [MEvent.apiOpen, MEvent.timerFire]))
      = closeMobileMenu (runEvents [MEvent.apiOpen, MEvent.timerFire]) :=
  (c10_isOpen_accessor [MEvent.apiOpen, MEvent.timerFire]).2.2 (by decide)

/-! ## C4 — overlapping fetches: no sequence number, last completion wins -/

/-- C4 counterexample: Two overlapping `fetchCars` executions whose
responses resolve out of order: the later-issued request (for category 5,
yielding `[carB]`) resolves first, the earlier-issued one (`[carA]`)
resolves last — the final grid shows the result of the earlier-issued request,
not the latest-issued one, because `fetchCars` has no request sequence
number and every completion unconditionally overwrites the render. -/
theorem c4_counterexample :
    (runFM fmInit
      [FMEvent.fetchStart (CatId.cat 1), FMEvent.fetchStart (CatId.cat 5),
       FMEvent.fetchComplete (Except.ok (CarsPayload.list [carB])),
       FMEvent.fetchComplete (Except.ok (CarsPayload.list [carA]))]).carsGrid
      = renderCars [] [carA] ∧
    renderCars [] [carA] ≠ renderCars [] [carB] := by
  constructor
  · rfl
  · set_option maxRecDepth 8192 in decide

/-- C4 amended: The implementation tracks no request sequence number:
overlap is only prevented at the filter-click entry point, where
`onFilterClick` returns unchanged while `isLoading` is set (issuing no new
request); and whenever `fetchCars` completions do interleave, the response
that completes last determines the rendered grid, regardless of the order
in which the requests were issued. -/
theorem c4_last_completion_wins (st : FMState) (id : CatId) (evs : List FMEvent)
    (r : Except String CarsPayload) :
    (st.isLoading = true → fmStep st (FMEvent.filterClick id) = st) ∧
    (runFM st (evs ++ [FMEvent.fetchComplete r])).carsGrid
      = completeGridOf (runFM st evs).categories r := by
  constructor
  · intro h
    unfold fmStep
    simp [h]
  · unfold runFM
    rw [List.foldl_append]
    cases r with
    | ok p => rfl
    | error e => rfl

/-- Witness for the amended C4: a click during an in-flight fetch is
dropped, and a completing response determines the grid. -/
theorem c4_last_completion_wins_witness :
    fmStep loadingFM (FMEvent.filterClick CatId.all) = loadingFM ∧
    (runFM loadingFM ([] ++ [FMEvent.fetchComplete (Except.ok (CarsPayload.list []))])).carsGrid
      = completeGridOf (runFM loadingFM []).categories (Except.ok (CarsPayload.list [])) :=
  ⟨(c4_last_completion_wins loadingFM CatId.all [] (Except.ok (CarsPayload.list []))).1 rfl,
   (c4_last_completion_wins loadingFM CatId.all [] (Except.ok (CarsPayload.list []))).2⟩

/-! ## C5 — failed vehicle fetches render an error, not the empty list -/

/-- C5 counterexample: A failing `fetchCars` call renders the explicit
error box, which differs from the grid a successful empty response renders,
and it does not reset the stored vehicle list to `[]`. -/
theorem c5_counterexample :
    (fmStep idleFM (FMEvent.fetchComplete (Except.error ("network")))).carsGrid
      ≠ (fmStep idleFM (FMEvent.fetchComplete (Except.ok (CarsPayload.list [])))).carsGrid ∧
    (fmStep idleFM (FMEvent.fetchComplete (Except.error ("network")))).cars ≠ [] := by
  constructor <;> decide

/-- C5 amended: On any `fetchCars` failure the grid is set to the
explicit error message `Не удалось загрузить автомобили` (and `isLoading`
is cleared); the stored vehicle list is left unchanged — it does not fall
back to the empty list — and the error render is distinct from the
"no cars found" render a successful zero-vehicle response produces. -/
theorem c5_error_renders_error_box (st : FMState) (e : String) :
    fmStep st (FMEvent.fetchComplete (Except.error e))
      = { st with carsGrid := errorDiv fetchCarsErrorMsg, isLoading := false } ∧
    errorDiv fetchCarsErrorMsg ≠ renderCars st.categories [] := by
  constructor
  · rfl
  · rw [show renderCars st.categories [] = createNoCarsMessage from rfl]
    decide

/-- Witness for the amended C5 at a concrete state. -/
theorem c5_error_renders_error_box_witness :
    fmStep idleFM (FMEvent.fetchComplete (Except.error ("timeout")))
      = { idleFM with carsGrid := errorDiv fetchCarsErrorMsg, isLoading := false } ∧
    errorDiv fetchCarsErrorMsg ≠ renderCars idleFM.categories [] :=
  c5_error_renders_error_box idleFM ("timeout")

/-! ## C6 — failed category fetches yield the fixed 3-entry fallback -/

/-- C6: Whenever `fetchCategories` fails — the API object/method is
absent (`none`) or the call rejects (`some (.error e)`) — `loadCategories`
yields exactly the mock fallback set, whose names are, in order,
`Эконом`, `Комфорт`, `SUV`. -/
theorem c6_categories_fallback (r : Option (Except String (List Category)))
    (h : r = none ∨ ∃ e, r = some (Except.error e)) :
    loadCategories r = getMockCategories ∧
    getMockCategories.map Category.name = [("Эконом"), ("Комфорт"), ("SUV")] := by
  refine ⟨?_, rfl⟩
  rcases h with h | ⟨e, h⟩ <;> subst h <;> rfl

/-- Witness for C6 at a rejecting API call. -/
theorem c6_categories_fallback_witness :
    loadCategories (some (Except.error ("HTTP 500"))) = getMockCategories ∧
    getMockCategories.map Category.name = [("Эконом"), ("Комфорт"), ("SUV")] :=
  c6_categories_fallback (some (Except.error ("HTTP 500"))) (Or.inr ⟨("HTTP 500"), rfl⟩)

/-! ## C7 — missing translation keys leave content untouched -/

/-- C7: `applyTranslations` is the elementwise map of the text and
placeholder passes; for any element and dictionary: when the key of the element
does not resolve to a string, its text is left exactly as it was (same for
the placeholder pass and the document title), and a text is overwritten
only when the lookup yields precisely that string — content is never
blanked or set to an undefined value.  The text pass never touches
placeholders and vice versa. -/
theorem c7_missing_key_preserved (d : JVal) (els : List TransElem) (el : TransElem)
    (k : String) (tk : Option String) (t : String) :
    (applyTranslations (some d) els tk t).1
      = els.map (fun e => applyI18nPlaceholder d (applyI18nText d e)) ∧
    (el.i18nKey = some k → (∀ s, get d k ≠ some (JVal.str s)) →
      (applyI18nText d el).text = el.text) ∧
    (∀ s, el.i18nKey = some k → get d k = some (JVal.str s) →
      (applyI18nText d el).text = s) ∧
    (applyI18nText d el).placeholder = el.placeholder ∧
    (el.i18nPlaceholderKey = some k → (∀ s, get d k ≠ some (JVal.str s)) →
      (applyI18nPlaceholder d el).placeholder = el.placeholder) ∧
    (applyI18nPlaceholder d el).text = el.text ∧
    (tk = some k → (∀ s, get d k ≠ some (JVal.str s)) →
      (applyTranslations (some d) els tk t).2 = t) := by
  refine ⟨rfl, ?_, ?_, ?_, ?_, ?_, ?_⟩
  · intro hk hns
    cases hv : get d k with
    | none => simp [applyI18nText, hk, hv]
    | some v =>
      cases v with
      | str s => exact absurd hv (hns s)
      | num n => simp [applyI18nText, hk, hv]
      | boolean b => simp [applyI18nText, hk, hv]
      | null => simp [applyI18nText, hk, hv]
      | obj fs => simp [applyI18nText, hk, hv]
  · intro s hk hv
    simp [applyI18nText, hk, hv]
  · cases hik : el.i18nKey with
    | none => simp [applyI18nText, hik]
    | some k2 =>
      cases hv : get d k2 with
      | none => simp [applyI18nText, hik, hv]
      | some v => cases v <;> simp [applyI18nText, hik, hv]
  · intro hk hns
    cases hv : get d k with
    | none => simp [applyI18nPlaceholder, hk, hv]
    | some v =>
      cases v with
      | str s => exact absurd hv (hns s)
      | num n => simp [applyI18nPlaceholder, hk, hv]
      | boolean b => simp [applyI18nPlaceholder, hk, hv]
      | null => simp [applyI18nPlaceholder, hk, hv]
      | obj fs => simp [applyI18nPlaceholder, hk, hv]
  · cases hik : el.i18nPlaceholderKey with
    | none => simp [applyI18nPlaceholder, hik]
    | some k2 =>
      cases hv : get d k2 with
      | none => simp [applyI18nPlaceholder, hik, hv]
      | some v => cases v <;> simp [applyI18nPlaceholder, hik, hv]
  · intro htk hns
    cases hv : get d k with
    | none => simp [applyTranslations, applyI18nTitle, htk, hv]
    | some v =>
      cases v with
      | str s => exact absurd hv (hns s)
      | num n => simp [applyTranslations, applyI18nTitle, htk, hv]
      | boolean b => simp [applyTranslations, applyI18nTitle, htk, hv]
      | null => simp [applyTranslations, applyI18nTitle, htk, hv]
      | obj fs => simp [applyTranslations, applyI18nTitle, htk, hv]

/-- Witness for C7: a dictionary with a `nav` subtree but no `nav.home`
leaves the prior text `Главная` of the tagged element unchanged. -/
theorem c7_missing_key_preserved_witness :
    (applyI18nText dictMissingHome elemHome).text = ("Главная") := by
  have hnone : get dictMissingHome ("nav.home") = none := rfl
  exact (c7_missing_key_preserved dictMissingHome [] elemHome ("nav.home") none ("Аренда")).2.1
    rfl (fun s hs => by rw [hnone] at hs; exact Option.noConfusion hs)

/-! ## C8 — a missing close button makes the focus trap throw -/

/-- C8, the code bug: With every drawer element present except
`mobileCloseBtn`, initialization succeeds and wires all listeners (the
toggle and nav guards pass), so the drawer can be opened; but the
focus-trap `keydown` handler then evaluates `lastElement.focus()` with
`lastElement = menuClose = null`: a Shift+Tab while the first
`.mobile-nav-link` is focused in the open drawer raises an uncaught
`TypeError` — contradicting the never-throw claim. -/
theorem c8_focus_trap_throws :
    initMobileMenu docNoCloseBtn = Except.ok (true, docNoCloseBtn) ∧
    focusTrapKeydown false 2 true (FocusTarget.link 0) true true
      = Except.error JsErr.nullFocus := by
  constructor
  · rfl
  · rfl

end Avtorend
